import Mathlib

/-!
Shallow embedding of `src/src/routes/uniswap.py` (the real PancakeSwap V3
routes) and `src/src/routes/uniswap_simple.py` (the mock revision), for
checking the natural-language specification against the code.

Chain interactions (RPC calls) are modelled as events appended to a trace;
the outcome of the per-tier quoter read call is an oracle
`Nat → Option QuoteCallResult` (deterministic per fee tier within one
request, matching the per-tier read-call outcome pattern of one request).
Python truthiness of JSON values is modelled on `Option ℚ` / `Option String`
(absent, `0`, and `""` are falsy).  `int(x)` on a float/decimal is
truncation toward zero, modelled by `pyInt` on `ℚ`.
-/

namespace Aspecta

/-! ### Static configuration (uniswap.py lines 16-21) -/

def CONTRACT_ADDRESS : Nat := 0xad8c787992428cD158E451aAb109f724B6bc36de

def WBNB_ADDRESS : Nat := 0xbb4CdB9CBd36B01bD1cBaEBF2De08d9173bc095c

def ZERO_ADDRESS : Nat := 0x0000000000000000000000000000000000000000

/-- The token's decimals: the code hardcodes `10 ** 18` with the comment
"18 decimals for ASPECTA" (line 168); the mock data also has `decimals = 18`. -/
def ASPECTA_DECIMALS : Nat := 18

/-! ### Python helpers -/

/-- Python `int(q)`: truncation toward zero. -/
def pyInt (q : ℚ) : ℤ := if 0 ≤ q then ⌊q⌋ else ⌈q⌉

/-- Python truthiness of an optional JSON number (`None` and `0` are falsy). -/
def truthyQ : Option ℚ → Bool
  | none => false
  | some q => if q = 0 then false else true

/-- Python truthiness of an optional JSON string (`None` and `""` are falsy). -/
def truthyS : Option String → Bool
  | none => false
  | some s => if s = "" then false else true

/-- `int(amount * (10 ** 18))` — the wei conversion used at lines 169, 303,
394 and 395 ("18 decimals for ASPECTA"). -/
def to_wei (a : ℚ) : ℤ := pyInt (a * 10 ^ 18)

/-- `wei / (10 ** 18)` — the inverse conversion used for human-readable
display (lines 85, 226). -/
def from_wei (w : ℤ) : ℚ := (w : ℚ) / 10 ^ 18

/-! ### RPC events -/

/-- One RPC round-trip to the chain node, as issued by the code. -/
inductive Ev where
  | isConnectedCall
  | chainIdCall
  | blockNumberCall
  | quoterCall (fee : Nat)
  | getPoolCall (tokenA tokenB fee : Nat)
  | nonceCall
  | gasPriceCall
  | broadcastCall
  deriving DecidableEq, Repr

/-! ### Quote endpoint (uniswap.py lines 135-280) -/

/-- The tuple returned by `quoteExactInputSingle` (line 223). -/
structure QuoteCallResult where
  amount_out : Nat
  sqrt_price_x96_after : Nat
  initialized_ticks_crossed : Nat
  gas_estimate : Nat
  deriving DecidableEq, Repr

/-- JSON body of a POST /quote request: `amount_in` and optional `fee`. -/
structure QuoteRequest where
  amount_in : Option ℚ
  fee : Option Nat
  deriving DecidableEq, Repr

/-- `fee_tiers_to_try = [fee, 10000, 500, 100, 2500]` (line 187):
the requested (or defaulted) fee first, then the fixed fallback list. -/
def fee_tiers_to_try (fee : Nat) : List Nat := [fee, 10000, 500, 100, 2500]

/-- JSON body of a successful quote response (lines 230-246). `note` carries
the fee tier mentioned by the fallback-note string when it is non-null
(line 240: the note is a string mentioning `try_fee` iff `try_fee != fee`). -/
structure QuoteBody where
  amount_in : ℚ
  amount_in_wei : ℤ
  amount_out : Nat
  amount_out_formatted : ℚ
  fee : Nat
  gas_estimate : Nat
  price_impact : ℚ
  note : Option Nat
  deriving DecidableEq, Repr

/-- The four response shapes of the quote endpoint. -/
inductive QuoteResponse where
  | validationError
  | notConnected
  | success (body : QuoteBody)
  | noLiquidity (tiersTried : List Nat)
  deriving DecidableEq, Repr

/-- HTTP status of each quote response (400 for validation and no-liquidity,
500 when not connected, 200 on success). -/
def QuoteResponse.status : QuoteResponse → Nat
  | .validationError => 400
  | .notConnected => 500
  | .success _ => 200
  | .noLiquidity _ => 400

/-- The per-tier fallback loop (lines 189-252): for each candidate tier, a
block-number connectivity test then the quoter read call; on success return
immediately, on failure continue with the next tier. -/
def quoteLoop (oracle : Nat → Option QuoteCallResult) :
    List Nat → List Ev × Option (Nat × QuoteCallResult)
  | [] => ([], none)
  | t :: ts =>
    match oracle t with
    | some r => ([Ev.blockNumberCall, Ev.quoterCall t], some (t, r))
    | none =>
      let rest := quoteLoop oracle ts
      (Ev.blockNumberCall :: Ev.quoterCall t :: rest.1, rest.2)

/-- Success body construction (lines 230-246). -/
def mkQuoteBody (a : ℚ) (wei : ℤ) (t : Nat) (r : QuoteCallResult) (reqFee : Nat) :
    QuoteBody :=
  let fmt : ℚ := (r.amount_out : ℚ) / 10 ^ 18
  ⟨a, wei, r.amount_out, fmt, t, r.gas_estimate, fmt / a,
    if t = reqFee then none else some t⟩

/-- `get_quote` (lines 135-280).  The environment-check logging (lines
143-146) runs before the request body is validated: `is_connected`, then
`chain_id` and `block_number` when connected.  Validation is `if not
amount_in` (line 154); a second `is_connected` check follows (line 158);
then `amount_in_wei = int(amount_in * 10 ** 18)` (line 169) and the fee-tier
loop; when every tier fails, the 400 no-liquidity body lists
`fee_tiers_to_try` and its debug info re-queries `is_connected`/`chain_id`
(lines 265-266). -/
def get_quote (connected : Bool) (oracle : Nat → Option QuoteCallResult)
    (req : QuoteRequest) : List Ev × QuoteResponse :=
  let envEvs :=
    Ev.isConnectedCall ::
      (if connected then [Ev.chainIdCall, Ev.blockNumberCall] else [])
  let fee := req.fee.getD 10000
  if truthyQ req.amount_in = false then
    (envEvs, .validationError)
  else if connected = false then
    (envEvs ++ [Ev.isConnectedCall], .notConnected)
  else
    let a := req.amount_in.getD 0
    let wei := to_wei a
    let res := quoteLoop oracle (fee_tiers_to_try fee)
    match res.2 with
    | some (t, r) =>
      (envEvs ++ [Ev.isConnectedCall] ++ res.1, .success (mkQuoteBody a wei t r fee))
    | none =>
      (envEvs ++ [Ev.isConnectedCall] ++ res.1 ++ [Ev.isConnectedCall, Ev.chainIdCall],
        .noLiquidity (fee_tiers_to_try fee))

/-- The fee tiers attempted by a trace, in order: the tiers of its quoter
read calls. -/
def attemptedTiers (evs : List Ev) : List Nat :=
  evs.filterMap fun e => match e with | Ev.quoterCall t => some t | _ => none

/-! ### Pool-info endpoint (uniswap.py lines 91-133) -/

/-- `fee_tiers = [100, 500, 2500, 10000]` (line 109). -/
def pool_fee_tiers : List Nat := [100, 500, 2500, 10000]

/-- One entry of the `pools` list in the pool-info response (lines 116-122). -/
structure PoolEntry where
  address : Nat
  fee : Nat
  deriving DecidableEq, Repr

/-- The per-tier registry loop of `get_pool_info` (lines 112-122): one
`getPool(token_address, wbnb_address, fee)` read call per fee tier, in the
fixed argument order of the code; an entry is appended when the returned
pool address is non-zero.  `registry a b f` is the oracle for the factory's
`getPool(a, b, f)` read call. -/
def poolLoop (registry : Nat → Nat → Nat → Nat) :
    List Nat → List Ev × List PoolEntry
  | [] => ([], [])
  | f :: fs =>
    let pool := registry CONTRACT_ADDRESS WBNB_ADDRESS f
    let rest := poolLoop registry fs
    (Ev.getPoolCall CONTRACT_ADDRESS WBNB_ADDRESS f :: rest.1,
      if pool ≠ ZERO_ADDRESS then ⟨pool, f⟩ :: rest.2 else rest.2)

/-- Response of GET /pool-info: `none` models the 500 branch (not connected),
`some pools` the success body's `pools` list. -/
def get_pool_info (connected : Bool) (registry : Nat → Nat → Nat → Nat) :
    List Ev × Option (List PoolEntry) :=
  if connected = false then ([Ev.isConnectedCall], none)
  else
    let res := poolLoop registry pool_fee_tiers
    (Ev.isConnectedCall :: res.1, some res.2)

/-! ### Transaction pipeline endpoints (uniswap.py lines 282-469) -/

/-- The object returned by `w3.eth.account.sign_transaction`: the raw signed
bytes may be exposed under the attribute `rawTransaction` or
`raw_transaction` (or neither, on an incompatible library version).  Raw
bytes are modelled as `Nat`. -/
structure SignedTxn where
  rawTransaction : Option Nat
  raw_transaction : Option Nat
  deriving DecidableEq, Repr

/-- The attribute-name compatibility shim (lines 332-338 and 433-437):
`rawTransaction` is checked first, then `raw_transaction`. -/
def extract_raw (s : SignedTxn) : Option Nat :=
  match s.rawTransaction with
  | some r => some r
  | none => s.raw_transaction

/-- Outcome of one pipeline endpoint: `done` with the transaction hash
(success body, 200) or `failed` with the HTTP status of the error body. -/
inductive PipeOutcome where
  | done (txHash : Nat)
  | failed (status : Nat)
  deriving DecidableEq, Repr

/-- A pipeline outcome is terminal: it is `done` or `failed`. -/
def PipeOutcome.terminal : PipeOutcome → Prop
  | .done _ => True
  | .failed _ => True

/-- JSON body of a POST /approve request (lines 287-290). -/
structure ApproveRequest where
  private_key : Option String
  account_address : Option String
  amount : Option ℚ
  deriving DecidableEq, Repr

/-- `approve_token` (lines 282-369).  Field validation (line 294) precedes
the connectivity check (line 298); then nonce fetch (line 308), transaction
build with `chainId` and `gasPrice` lookups (lines 316-321), signing, the
raw-attribute shim (500 when neither attribute exists, with no broadcast),
and finally `send_raw_transaction`.  `signed` is the signing collaborator's
output for this transaction. -/
def approve_token (connected : Bool) (signed : SignedTxn) (req : ApproveRequest) :
    List Ev × PipeOutcome :=
  if ¬(truthyS req.private_key = true ∧ truthyS req.account_address = true ∧
        truthyQ req.amount = true) then
    ([], .failed 400)
  else if connected = false then
    ([Ev.isConnectedCall], .failed 500)
  else
    let pre := [Ev.isConnectedCall, Ev.nonceCall, Ev.chainIdCall, Ev.gasPriceCall]
    match extract_raw signed with
    | none => (pre, .failed 500)
    | some r => (pre ++ [Ev.broadcastCall], .done r)

/-- JSON body of a POST /swap request (lines 376-381). -/
structure SwapRequest where
  private_key : Option String
  account_address : Option String
  amount_in : Option ℚ
  amount_out_min : Option ℚ
  fee : Option ℚ
  deriving DecidableEq, Repr

/-- `swap_token` (lines 371-468).  Validation is
`if not all([private_key, account_address, amount_in, amount_out_min, fee])`
(line 385): every field must be truthy, so `amount_out_min = 0` is rejected
as missing.  Then the same pipeline as `approve_token`: connectivity check,
nonce fetch (line 400), build with `chainId`/`gasPrice` (lines 420-425),
signing, raw-attribute shim, broadcast. -/
def swap_token (connected : Bool) (signed : SignedTxn) (req : SwapRequest) :
    List Ev × PipeOutcome :=
  if ¬(truthyS req.private_key = true ∧ truthyS req.account_address = true ∧
        truthyQ req.amount_in = true ∧ truthyQ req.amount_out_min = true ∧
        truthyQ req.fee = true) then
    ([], .failed 400)
  else if connected = false then
    ([Ev.isConnectedCall], .failed 500)
  else
    let pre := [Ev.isConnectedCall, Ev.nonceCall, Ev.chainIdCall, Ev.gasPriceCall]
    match extract_raw signed with
    | none => (pre, .failed 500)
    | some r => (pre ++ [Ev.broadcastCall], .done r)

/-! ### Execute-swap sequencing -/

/-- Event of the composed execute-swap operation, tagged by which pipeline
issued it; `approvalOutcome`/`swapOutcome` mark the point where the
respective endpoint's HTTP response (its terminal outcome) is produced. -/
inductive XEv where
  | approvalEv (e : Ev)
  | approvalOutcome (o : PipeOutcome)
  | swapEv (e : Ev)
  | swapOutcome (o : PipeOutcome)
  deriving DecidableEq, Repr

/-- Modelled from the spec: the `executeSwap` orchestrator (SwapOrchestrator
§4.5) is not a function of src/ — src/ only has the two pipeline endpoints
`approve_token` and `swap_token`; the spec says `executeSwap` runs them in
sequence, the swap pipeline starting only after the approval's outcome is
known.  The composed trace is therefore the approval endpoint's trace,
terminated by its outcome, followed by the swap endpoint's trace and
outcome. -/
def executeSwap (connected : Bool) (asigned : SignedTxn) (areq : ApproveRequest)
    (ssigned : SignedTxn) (sreq : SwapRequest) : List XEv :=
  let a := approve_token connected asigned areq
  let s := swap_token connected ssigned sreq
  a.1.map XEv.approvalEv ++ [XEv.approvalOutcome a.2] ++
    s.1.map XEv.swapEv ++ [XEv.swapOutcome s.2]

/-- The events relevant to the approval-before-swap-nonce ordering: the
approval pipeline's terminal outcome and the swap pipeline's nonce fetch. -/
def xRelevant : XEv → Bool
  | XEv.approvalOutcome _ => true
  | XEv.swapEv Ev.nonceCall => true
  | _ => false

end Aspecta

/-! ### The mock revision `src/src/routes/uniswap_simple.py` -/

namespace UniswapSimple

/-- JSON body of the mock POST /swap request (lines 104-109 of
uniswap_simple.py): note the field name `amount_out_minimum`, and `fee`
defaulting to 3000. -/
structure MockSwapRequest where
  private_key : Option String
  account_address : Option String
  amount_in : Option ℚ
  amount_out_minimum : Option ℚ
  fee : Option ℚ
  deriving DecidableEq, Repr

/-- Success body of the mock swap (lines 117-127), with the wei fields
computed by `int(x * 10 ** 18)`. -/
structure MockSwapBody where
  amount_in : ℚ
  amount_in_wei : ℤ
  amount_out_minimum : ℚ
  amount_out_minimum_wei : ℤ
  fee : ℚ
  deriving DecidableEq, Repr

/-- Mock swap response: 400 missing-fields error or the success body. -/
inductive MockSwapResponse where
  | missingFields
  | success (body : MockSwapBody)
  deriving DecidableEq, Repr

/-- The mock `swap_token` (uniswap_simple.py lines 100-129).  Validation
(line 111) is `if not private_key or not account_address or not amount_in
or amount_out_minimum is None`: the minimum-output field is rejected only
when absent, so `0` is accepted. -/
def swap_token (req : MockSwapRequest) : MockSwapResponse :=
  if ¬(Aspecta.truthyS req.private_key = true ∧
        Aspecta.truthyS req.account_address = true ∧
        Aspecta.truthyQ req.amount_in = true ∧ req.amount_out_minimum ≠ none) then
    .missingFields
  else
    let ai := req.amount_in.getD 0
    let aom := req.amount_out_minimum.getD 0
    .success ⟨ai, Aspecta.to_wei ai, aom, Aspecta.to_wei aom, req.fee.getD 3000⟩

end UniswapSimple

/-! ## Helper lemmas -/

namespace Aspecta

/-- The fallback loop returns the first candidate whose read call succeeds. -/
theorem quoteLoop_first_success (oracle : Nat → Option QuoteCallResult)
    (l₁ : List Nat) (t : Nat) (l₂ : List Nat) (r : QuoteCallResult)
    (hfail : ∀ u ∈ l₁, oracle u = none) (hsucc : oracle t = some r) :
    (quoteLoop oracle (l₁ ++ t :: l₂)).2 = some (t, r) := by
  induction l₁ with
  | nil => simp [quoteLoop, hsucc]
  | cons u us ih =>
    have hu : oracle u = none := hfail u (by simp)
    have ih' := ih fun v hv => hfail v (by simp [hv])
    simpa [quoteLoop, hu] using ih'

/-- When every candidate's read call fails, the loop returns no result and
its trace's quoter calls are exactly the candidates, in order. -/
theorem quoteLoop_all_fail (oracle : Nat → Option QuoteCallResult)
    (l : List Nat) (hfail : ∀ u ∈ l, oracle u = none) :
    (quoteLoop oracle l).2 = none ∧
      attemptedTiers (quoteLoop oracle l).1 = l := by
  induction l with
  | nil => simp [quoteLoop, attemptedTiers]
  | cons u us ih =>
    have hu : oracle u = none := hfail u (by simp)
    have ih' := ih fun v hv => hfail v (by simp [hv])
    simp [quoteLoop, hu, attemptedTiers] at ih' ⊢
    exact ih'

/-- Truthiness of a present, non-zero amount. -/
theorem truthyQ_some_ne (a : ℚ) (h : a ≠ 0) : truthyQ (some a) = true := by
  simp [truthyQ, h]

/-- Full characterisation of a successful quote: if the candidate list
splits as `l₁ ++ t :: l₂` with every tier of `l₁` failing and `t`
succeeding with result `r`, the response is the success body built from
`t` and `r`. -/
theorem get_quote_success_spec (oracle : Nat → Option QuoteCallResult)
    (req : QuoteRequest) (a : ℚ) (ha : req.amount_in = some a) (h0 : a ≠ 0)
    (l₁ : List Nat) (t : Nat) (l₂ : List Nat) (r : QuoteCallResult)
    (hsplit : fee_tiers_to_try (req.fee.getD 10000) = l₁ ++ t :: l₂)
    (hfail : ∀ u ∈ l₁, oracle u = none) (hsucc : oracle t = some r) :
    (get_quote true oracle req).2 =
      .success (mkQuoteBody a (to_wei a) t r (req.fee.getD 10000)) := by
  have htr : truthyQ req.amount_in = true := by rw [ha]; exact truthyQ_some_ne a h0
  have hloop : (quoteLoop oracle (fee_tiers_to_try (req.fee.getD 10000))).2 =
      some (t, r) := by
    rw [hsplit]; exact quoteLoop_first_success oracle l₁ t l₂ r hfail hsucc
  simp [get_quote, htr, hloop, ha, truthyQ_some_ne a h0]

/-- Full characterisation of the all-tiers-fail quote: the response is the
no-liquidity error listing the candidate list, and the attempted quoter
calls are exactly that list, in order. -/
theorem get_quote_all_fail_spec (oracle : Nat → Option QuoteCallResult)
    (req : QuoteRequest) (a : ℚ) (ha : req.amount_in = some a) (h0 : a ≠ 0)
    (hfail : ∀ u ∈ fee_tiers_to_try (req.fee.getD 10000), oracle u = none) :
    (get_quote true oracle req).2 =
        .noLiquidity (fee_tiers_to_try (req.fee.getD 10000)) ∧
      attemptedTiers (get_quote true oracle req).1 =
        fee_tiers_to_try (req.fee.getD 10000) := by
  have htr : truthyQ req.amount_in = true := by rw [ha]; exact truthyQ_some_ne a h0
  obtain ⟨h1, h2⟩ := quoteLoop_all_fail oracle _ hfail
  constructor
  · simp [get_quote, htr, h1]
  · simp [get_quote, htr, h1, attemptedTiers, List.filterMap_append] at h2 ⊢
    exact h2

/-- `|q - pyInt q| < 1`: Python `int` truncation loses less than one unit. -/
theorem abs_sub_pyInt_lt_one (q : ℚ) : |q - (pyInt q : ℚ)| < 1 := by
  rw [pyInt]
  split
  · rw [abs_sub_lt_iff]
    exact ⟨by linarith [Int.sub_one_lt_floor q], by linarith [Int.floor_le q]⟩
  · rw [abs_sub_lt_iff]
    exact ⟨by linarith [Int.le_ceil q], by linarith [Int.ceil_lt_add_one q]⟩

end Aspecta

/-! ## Claim theorems -/

namespace Aspecta

/-- C1: for every quote request and every outcome pattern of the per-tier
read calls, `get_quote` returns the result (tier, output amount, gas
estimate) of the first fee tier in its candidate order whose exact-input
read call succeeds — never the result of a later tier, whatever the later
tiers would return. -/
theorem C1_first_successful_tier_wins (oracle : Nat → Option QuoteCallResult)
    (req : QuoteRequest) (a : ℚ) (ha : req.amount_in = some a) (h0 : a ≠ 0)
    (l₁ : List Nat) (t : Nat) (l₂ : List Nat) (r : QuoteCallResult)
    (hsplit : fee_tiers_to_try (req.fee.getD 10000) = l₁ ++ t :: l₂)
    (hfail : ∀ u ∈ l₁, oracle u = none) (hsucc : oracle t = some r) :
    ∃ body, (get_quote true oracle req).2 = .success body ∧
      body.fee = t ∧ body.amount_out = r.amount_out ∧
      body.gas_estimate = r.gas_estimate := by
  refine ⟨mkQuoteBody a (to_wei a) t r (req.fee.getD 10000),
    get_quote_success_spec oracle req a ha h0 l₁ t l₂ r hsplit hfail hsucc, rfl, rfl, rfl⟩

/-- C1 witness: requested tier 3000 fails, tier 10000 succeeds with output 5,
while the later tier 500 would have returned the much larger output 10 ^ 30;
the response carries tier 10000's result. -/
theorem C1_witness :
    ∃ body,
      (get_quote true
          (fun u =>
            if u = 10000 then some ⟨5, 0, 0, 1⟩
            else if u = 500 then some ⟨10 ^ 30, 0, 0, 2⟩ else none)
          ⟨some 1, some 3000⟩).2 = .success body ∧
        body.fee = 10000 ∧ body.amount_out = 5 ∧ body.gas_estimate = 1 := by
  exact C1_first_successful_tier_wins _ ⟨some 1, some 3000⟩ 1 rfl (by norm_num)
    [3000] 10000 [500, 100, 2500] ⟨5, 0, 0, 1⟩ (by simp [fee_tiers_to_try])
    (by intro u hu; simp at hu; simp [hu]) (by simp)

/-- C2: when the read call fails for every candidate tier, `get_quote`
returns the no-liquidity error as a 400 response whose tier list is exactly
the sequence of tiers attempted (the quoter calls of the request's trace),
in order, and no success body is ever synthesized. -/
theorem C2_no_liquidity_lists_attempted_tiers (oracle : Nat → Option QuoteCallResult)
    (req : QuoteRequest) (a : ℚ) (ha : req.amount_in = some a) (h0 : a ≠ 0)
    (hfail : ∀ u ∈ fee_tiers_to_try (req.fee.getD 10000), oracle u = none) :
    (get_quote true oracle req).2 =
        .noLiquidity (attemptedTiers (get_quote true oracle req).1) ∧
      attemptedTiers (get_quote true oracle req).1 =
        fee_tiers_to_try (req.fee.getD 10000) ∧
      ((get_quote true oracle req).2).status = 400 ∧
      ∀ body, (get_quote true oracle req).2 ≠ .success body := by
  obtain ⟨h1, h2⟩ := get_quote_all_fail_spec oracle req a ha h0 hfail
  refine ⟨by rw [h1, h2], h2, by rw [h1]; rfl, fun body hbody => ?_⟩
  rw [h1] at hbody
  exact QuoteResponse.noConfusion hbody

/-- C2 witness: with every tier failing and requested tier 3000, the
response is the 400 no-liquidity error listing the attempted tiers
`[3000, 10000, 500, 100, 2500]` in order. -/
theorem C2_witness :
    (get_quote true (fun _ => none) ⟨some 1, some 3000⟩).2 =
        .noLiquidity (attemptedTiers (get_quote true (fun _ => none)
          ⟨some 1, some 3000⟩).1) ∧
      attemptedTiers (get_quote true (fun _ => none) ⟨some 1, some 3000⟩).1 =
        [3000, 10000, 500, 100, 2500] ∧
      ((get_quote true (fun _ => none) ⟨some 1, some 3000⟩).2).status = 400 := by
  obtain ⟨h1, h2, h3, _⟩ := C2_no_liquidity_lists_attempted_tiers (fun _ => none)
    ⟨some 1, some 3000⟩ 1 rfl (by norm_num) (fun u _ => rfl)
  exact ⟨h1, h2, h3⟩

/-- C3 counterexample: the request `amount_in = -1` (so `amount_in ≤ 0`) is
not rejected by validation — the code's check `if not amount_in` only
catches falsy values — and quoter RPC read calls are issued for it (here
every tier fails, so the response is the no-liquidity error, not the
validation error). -/
theorem C3_counterexample :
    (get_quote true (fun _ => none) ⟨some (-1), none⟩).2 ≠ .validationError ∧
      Ev.quoterCall 10000 ∈ (get_quote true (fun _ => none) ⟨some (-1), none⟩).1 := by
  constructor
  · simp [get_quote, truthyQ, quoteLoop, fee_tiers_to_try]
  · simp [get_quote, truthyQ, quoteLoop, fee_tiers_to_try]

/-- C3 (amended): a quote request whose `amount_in` is missing or zero is
rejected with the validation error before any quoter read call — the only
RPC calls preceding the rejection are the environment-check calls (at most
three); a negative `amount_in`, by contrast, is not rejected (see the
counterexample). -/
theorem C3_falsy_amount_rejected_before_quoter (connected : Bool)
    (oracle : Nat → Option QuoteCallResult) (req : QuoteRequest)
    (h : req.amount_in = none ∨ req.amount_in = some 0) :
    (get_quote connected oracle req).2 = .validationError ∧
      (∀ t, Ev.quoterCall t ∉ (get_quote connected oracle req).1) ∧
      (get_quote connected oracle req).1.length ≤ 3 := by
  have htr : truthyQ req.amount_in = false := by
    rcases h with h | h <;> simp [h, truthyQ]
  refine ⟨by simp [get_quote, htr], fun t => ?_, ?_⟩
  · cases connected <;> simp [get_quote, htr]
  · cases connected <;> simp [get_quote, htr]

/-- C3 witness: the concrete request `amount_in = 0` is rejected with the
validation error, with no quoter call in its trace. -/
theorem C3_witness :
    (get_quote true (fun _ => none) ⟨some 0, none⟩).2 = .validationError ∧
      (∀ t, Ev.quoterCall t ∉ (get_quote true (fun _ => none) ⟨some 0, none⟩).1) ∧
      (get_quote true (fun _ => none) ⟨some 0, none⟩).1.length ≤ 3 :=
  C3_falsy_amount_rejected_before_quoter true (fun _ => none) ⟨some 0, none⟩
    (Or.inr rfl)

/-- C4 counterexample: with the default preferred tier 10000 (the code's
`data.get("fee", 10000)`), the candidate list is
`[10000, 10000, 500, 100, 2500]` — the preferred tier appears twice, so the
list is not duplicate-free and the fallback part is not restricted to the
*remaining* tiers. -/
theorem C4_counterexample :
    fee_tiers_to_try 10000 = [10000, 10000, 500, 100, 2500] ∧
      (fee_tiers_to_try 10000).count 10000 = 2 ∧
      ¬(fee_tiers_to_try 10000).Nodup := by
  refine ⟨rfl, by decide, by decide⟩

/-- C4 (amended): the candidate list is always the preferred tier followed
by the full fixed fallback list `[10000, 500, 100, 2500]` (not the
remaining tiers); it is duplicate-free exactly when the preferred tier is
not one of the four fallback tiers, and otherwise that tier appears twice. -/
theorem C4_candidate_list_shape (f : Nat) :
    fee_tiers_to_try f = f :: [10000, 500, 100, 2500] ∧
      (f ∉ ([10000, 500, 100, 2500] : List Nat) → (fee_tiers_to_try f).Nodup) ∧
      (f ∈ ([10000, 500, 100, 2500] : List Nat) → (fee_tiers_to_try f).count f = 2) := by
  refine ⟨rfl, fun hf => ?_, fun hf => ?_⟩
  · rw [fee_tiers_to_try, List.nodup_cons]
    exact ⟨hf, by decide⟩
  · fin_cases hf <;> decide

/-- C4 witness: a preferred tier outside the fallback list (3000) yields the
duplicate-free candidate list `[3000, 10000, 500, 100, 2500]`; a preferred
tier inside it (500) appears twice. -/
theorem C4_witness :
    (fee_tiers_to_try 3000 = 3000 :: [10000, 500, 100, 2500] ∧
        (fee_tiers_to_try 3000).Nodup) ∧
      (fee_tiers_to_try 500).count 500 = 2 := by
  obtain ⟨h1, h2, _⟩ := C4_candidate_list_shape 3000
  obtain ⟨_, _, h3⟩ := C4_candidate_list_shape 500
  exact ⟨⟨h1, h2 (by decide)⟩, h3 (by decide)⟩

/-- C5: in every execute-swap run that includes an approval, restricting
the composed trace to the relevant events (approval terminal outcome, swap
nonce fetch) always puts the approval's terminal outcome (`done` or
`failed`) first: the swap pipeline's nonce fetch is never issued before the
approval pipeline has reached its terminal state. -/
theorem C5_swap_nonce_after_approval_terminal (connected : Bool)
    (asigned : SignedTxn) (areq : ApproveRequest)
    (ssigned : SignedTxn) (sreq : SwapRequest) :
    ∃ o rest,
      (executeSwap connected asigned areq ssigned sreq).filter xRelevant =
          XEv.approvalOutcome o :: rest ∧
        PipeOutcome.terminal o ∧
        ∀ e ∈ rest, e = XEv.swapEv Ev.nonceCall := by
  refine ⟨(approve_token connected asigned areq).2,
    ((swap_token connected ssigned sreq).1.map XEv.swapEv).filter xRelevant, ?_, ?_, ?_⟩
  · have h1 : ((approve_token connected asigned areq).1.map XEv.approvalEv).filter
        xRelevant = [] := by
      rw [List.filter_eq_nil_iff]
      intro e he
      obtain ⟨x, _, rfl⟩ := List.mem_map.mp he
      simp [xRelevant]
    simp [executeSwap, List.filter_append, h1, xRelevant]
  · cases (approve_token connected asigned areq).2 <;> trivial
  · intro e he
    obtain ⟨hmem, hrel⟩ := List.mem_filter.mp he
    obtain ⟨x, _, rfl⟩ := List.mem_map.mp hmem
    cases x <;> simp [xRelevant] at hrel ⊢

/-- C5 witness: a concrete execute-swap run (all fields present, signing
exposing `rawTransaction`): the relevant-event subtrace starts with the
approval's terminal outcome, followed only by the swap's nonce fetch. -/
theorem C5_witness :
    ∃ o rest,
      (executeSwap true ⟨some 7, none⟩ ⟨some "k", some "a", some 1⟩
            ⟨some 7, none⟩ ⟨some "k", some "a", some 1, some 1, some 500⟩).filter
          xRelevant = XEv.approvalOutcome o :: rest ∧
        PipeOutcome.terminal o ∧
        ∀ e ∈ rest, e = XEv.swapEv Ev.nonceCall :=
  C5_swap_nonce_after_approval_terminal true ⟨some 7, none⟩ ⟨some "k", some "a", some 1⟩
    ⟨some 7, none⟩ ⟨some "k", some "a", some 1, some 1, some 500⟩

/-- C6: on a successful quote via tier `t`, the response's `fee` field is
the tier actually used, its `note` field is null exactly when that tier
equals the requested (or defaulted) one, and `amount_out_formatted` is the
read call's output scaled down by `10 ^ 18`; the spec's scenario is the
witness below. -/
theorem C6_fallback_tier_reported (oracle : Nat → Option QuoteCallResult)
    (req : QuoteRequest) (a : ℚ) (ha : req.amount_in = some a) (h0 : a ≠ 0)
    (l₁ : List Nat) (t : Nat) (l₂ : List Nat) (r : QuoteCallResult)
    (hsplit : fee_tiers_to_try (req.fee.getD 10000) = l₁ ++ t :: l₂)
    (hfail : ∀ u ∈ l₁, oracle u = none) (hsucc : oracle t = some r) :
    ∃ body, (get_quote true oracle req).2 = .success body ∧
      body.fee = t ∧ (body.note = none ↔ t = req.fee.getD 10000) ∧
      body.amount_out_formatted = (r.amount_out : ℚ) / 10 ^ 18 := by
  refine ⟨mkQuoteBody a (to_wei a) t r (req.fee.getD 10000),
    get_quote_success_spec oracle req a ha h0 l₁ t l₂ r hsplit hfail hsucc, rfl, ?_, rfl⟩
  rw [mkQuoteBody]
  constructor
  · intro h
    by_contra hne
    simp [hne] at h
  · intro h
    simp [h]

/-- C6 witness: the spec's scenario — `amount_in = 100`, preferred fee 3000
failing, tier 10000 succeeding at rate `0.00001` (output `10 ^ 15` wei):
the response reports `fee = 10000`, a non-null fallback note, and
`amount_out_formatted = 0.001`. -/
theorem C6_witness :
    ∃ body,
      (get_quote true
          (fun u => if u = 10000 then some ⟨10 ^ 15, 0, 0, 150000⟩ else none)
          ⟨some 100, some 3000⟩).2 = .success body ∧
        body.fee = 10000 ∧ body.note ≠ none ∧
        body.amount_out_formatted = 1 / 1000 := by
  obtain ⟨body, h1, h2, h3, h4⟩ := C6_fallback_tier_reported
    (fun u => if u = 10000 then some ⟨10 ^ 15, 0, 0, 150000⟩ else none)
    ⟨some 100, some 3000⟩ 100 rfl (by norm_num)
    [3000] 10000 [500, 100, 2500] ⟨10 ^ 15, 0, 0, 150000⟩
    (by simp [fee_tiers_to_try]) (by intro u hu; simp at hu; simp [hu]) (by simp)
  refine ⟨body, h1, h2, ?_, by rw [h4]; norm_num⟩
  intro hnone
  exact (by norm_num : (10000 : Nat) ≠ 3000) (h3.mp hnone)

/-- C7: after signing, both write pipelines accept the signed payload's raw
bytes under either attribute name — `rawTransaction` (checked first) or
`raw_transaction` — and broadcast them; when neither is present, both fail
the request with the 500 signing-format error and never broadcast. -/
theorem C7_raw_attribute_shim (signed : SignedTxn)
    (areq : ApproveRequest) (sreq : SwapRequest)
    (hav : truthyS areq.private_key = true ∧ truthyS areq.account_address = true ∧
      truthyQ areq.amount = true)
    (hsv : truthyS sreq.private_key = true ∧ truthyS sreq.account_address = true ∧
      truthyQ sreq.amount_in = true ∧ truthyQ sreq.amount_out_min = true ∧
      truthyQ sreq.fee = true) :
    (∀ r, signed.rawTransaction = some r →
      (approve_token true signed areq).2 = .done r ∧
        (swap_token true signed sreq).2 = .done r) ∧
    (∀ r, signed.rawTransaction = none → signed.raw_transaction = some r →
      (approve_token true signed areq).2 = .done r ∧
        (swap_token true signed sreq).2 = .done r) ∧
    (signed.rawTransaction = none → signed.raw_transaction = none →
      (approve_token true signed areq).2 = .failed 500 ∧
        Ev.broadcastCall ∉ (approve_token true signed areq).1 ∧
        (swap_token true signed sreq).2 = .failed 500 ∧
        Ev.broadcastCall ∉ (swap_token true signed sreq).1) := by
  obtain ⟨ha1, ha2, ha3⟩ := hav
  obtain ⟨hs1, hs2, hs3, hs4, hs5⟩ := hsv
  refine ⟨fun r hr => ?_, fun r hr hr' => ?_, fun hr hr' => ?_⟩
  · constructor <;>
      simp [approve_token, swap_token, ha1, ha2, ha3, hs1, hs2, hs3, hs4, hs5,
        extract_raw, hr]
  · constructor <;>
      simp [approve_token, swap_token, ha1, ha2, ha3, hs1, hs2, hs3, hs4, hs5,
        extract_raw, hr, hr']
  · refine ⟨?_, ?_, ?_, ?_⟩ <;>
      simp [approve_token, swap_token, ha1, ha2, ha3, hs1, hs2, hs3, hs4, hs5,
        extract_raw, hr, hr']

/-- C7 witness: with all request fields present, a payload exposing only
`rawTransaction` and one exposing only `raw_transaction` are both
broadcast, and a payload exposing neither makes both endpoints fail with
500 and no broadcast call. -/
theorem C7_witness :
    ((approve_token true ⟨some 7, none⟩ ⟨some "k", some "a", some 1⟩).2 = .done 7 ∧
        (swap_token true ⟨some 7, none⟩
          ⟨some "k", some "a", some 1, some 1, some 500⟩).2 = .done 7) ∧
      ((approve_token true ⟨none, some 8⟩ ⟨some "k", some "a", some 1⟩).2 = .done 8 ∧
        (swap_token true ⟨none, some 8⟩
          ⟨some "k", some "a", some 1, some 1, some 500⟩).2 = .done 8) ∧
      ((approve_token true ⟨none, none⟩ ⟨some "k", some "a", some 1⟩).2 = .failed 500 ∧
        Ev.broadcastCall ∉
          (approve_token true ⟨none, none⟩ ⟨some "k", some "a", some 1⟩).1 ∧
        (swap_token true ⟨none, none⟩
            ⟨some "k", some "a", some 1, some 1, some 500⟩).2 = .failed 500 ∧
        Ev.broadcastCall ∉ (swap_token true ⟨none, none⟩
          ⟨some "k", some "a", some 1, some 1, some 500⟩).1) := by
  have hav : truthyS (some "k") = true ∧ truthyS (some "a") = true ∧
      truthyQ (some 1) = true := by refine ⟨rfl, rfl, ?_⟩; norm_num [truthyQ]
  have hsv : truthyS (some "k") = true ∧ truthyS (some "a") = true ∧
      truthyQ (some 1) = true ∧ truthyQ (some 1) = true ∧
      truthyQ (some 500) = true := by
    refine ⟨rfl, rfl, ?_, ?_, ?_⟩ <;> norm_num [truthyQ]
  obtain ⟨f1, _, _⟩ := C7_raw_attribute_shim ⟨some 7, none⟩
    ⟨some "k", some "a", some 1⟩ ⟨some "k", some "a", some 1, some 1, some 500⟩ hav hsv
  obtain ⟨_, f2, _⟩ := C7_raw_attribute_shim ⟨none, some 8⟩
    ⟨some "k", some "a", some 1⟩ ⟨some "k", some "a", some 1, some 1, some 500⟩ hav hsv
  obtain ⟨_, _, f3⟩ := C7_raw_attribute_shim ⟨none, none⟩
    ⟨some "k", some "a", some 1⟩ ⟨some "k", some "a", some 1, some 1, some 500⟩ hav hsv
  exact ⟨f1 7 rfl, f2 8 rfl rfl, f3 rfl rfl⟩

/-- The registry loop issues one `getPool` call per tier, in order, with the
code's fixed `(CONTRACT_ADDRESS, WBNB_ADDRESS)` argument pair, and its
entries' fees are exactly the tiers whose call returned a non-zero pool. -/
theorem poolLoop_spec (registry : Nat → Nat → Nat → Nat) (l : List Nat) :
    (poolLoop registry l).1 =
        l.map (fun f => Ev.getPoolCall CONTRACT_ADDRESS WBNB_ADDRESS f) ∧
      ((poolLoop registry l).2).map PoolEntry.fee =
        l.filter (fun f => decide (registry CONTRACT_ADDRESS WBNB_ADDRESS f ≠
          ZERO_ADDRESS)) := by
  induction l with
  | nil => simp [poolLoop]
  | cons f fs ih =>
    obtain ⟨ih1, ih2⟩ := ih
    by_cases h : registry CONTRACT_ADDRESS WBNB_ADDRESS f ≠ ZERO_ADDRESS
    · simp [poolLoop, h, ih1, ih2]
    · simp [poolLoop, h, ih1, ih2]

/-- C8: a pool-info request issues exactly one pool-registry read call per
known fee tier, every call passing the token pair in normalized (sorted,
since `CONTRACT_ADDRESS < WBNB_ADDRESS`) order; the returned pools are
exactly the tiers whose registry call yields a non-zero pool address, each
tier contributing at most one entry (the fee list of the result is
duplicate-free, and no pool is ever queried under the reversed ordering). -/
theorem C8_pool_info_spec (registry : Nat → Nat → Nat → Nat) :
    (get_pool_info true registry).1 =
        Ev.isConnectedCall ::
          pool_fee_tiers.map (fun f => Ev.getPoolCall CONTRACT_ADDRESS WBNB_ADDRESS f) ∧
      CONTRACT_ADDRESS < WBNB_ADDRESS ∧
      ∃ pools, (get_pool_info true registry).2 = some pools ∧
        pools.map PoolEntry.fee = pool_fee_tiers.filter
          (fun f => decide (registry CONTRACT_ADDRESS WBNB_ADDRESS f ≠ ZERO_ADDRESS)) ∧
        (pools.map PoolEntry.fee).Nodup := by
  obtain ⟨h1, h2⟩ := poolLoop_spec registry pool_fee_tiers
  refine ⟨by simp [get_pool_info, h1], by norm_num [CONTRACT_ADDRESS, WBNB_ADDRESS],
    (poolLoop registry pool_fee_tiers).2, by simp [get_pool_info], h2, ?_⟩
  rw [h2]
  exact List.Nodup.filter _ (by decide)

/-- C9: the wei conversion scales by `10 ^ decimals` of the token
(`decimals = 18` for ASPECTA/WBNB), and converting back with the display
conversion recovers the original amount within the 6-decimal formatting
precision (the truncation error is below `10 ^ (-18)`, hence below
`10 ^ (-6)`). -/
theorem C9_wei_roundtrip (a : ℚ) :
    to_wei a = pyInt (a * 10 ^ ASPECTA_DECIMALS) ∧
      |a - from_wei (to_wei a)| < 1 / 10 ^ 6 := by
  refine ⟨rfl, ?_⟩
  have h := abs_sub_pyInt_lt_one (a * 10 ^ 18)
  rw [from_wei, to_wei]
  have hE : (0 : ℚ) < 10 ^ 18 := by norm_num
  have key : a - (pyInt (a * 10 ^ 18) : ℚ) / 10 ^ 18 =
      (a * 10 ^ 18 - (pyInt (a * 10 ^ 18) : ℚ)) / 10 ^ 18 := by
    field_simp
  rw [key, abs_div, abs_of_pos hE, div_lt_iff₀ hE]
  calc |a * 10 ^ 18 - (pyInt (a * 10 ^ 18) : ℚ)| < 1 := h
    _ ≤ 1 / 10 ^ 6 * 10 ^ 18 := by norm_num

/-- C10: the real swap endpoint rejects any request with a falsy required
field — including the well-formed minimum output `amount_out_min = 0` —
with the 400 missing-fields error and no chain interaction, while the mock
revision accepts `amount_out_minimum = 0` and rejects it only when the
field is absent. -/
theorem C10_swap_validation_divergence (sreq : SwapRequest)
    (h : truthyS sreq.private_key = false ∨ truthyS sreq.account_address = false ∨
      truthyQ sreq.amount_in = false ∨ truthyQ sreq.amount_out_min = false ∨
      truthyQ sreq.fee = false)
    (mreq : UniswapSimple.MockSwapRequest)
    (hm : truthyS mreq.private_key = true ∧ truthyS mreq.account_address = true ∧
      truthyQ mreq.amount_in = true) :
    (∀ connected signed, swap_token connected signed sreq = ([], .failed 400)) ∧
      (mreq.amount_out_minimum = some 0 →
        ∃ body, UniswapSimple.swap_token mreq = .success body ∧
          body.amount_out_minimum = 0 ∧ body.amount_out_minimum_wei = 0) ∧
      (mreq.amount_out_minimum = none →
        UniswapSimple.swap_token mreq = .missingFields) := by
  obtain ⟨hm1, hm2, hm3⟩ := hm
  refine ⟨fun connected signed => ?_, fun haom => ?_, fun haom => ?_⟩
  · rcases h with h | h | h | h | h <;> simp [swap_token, h]
  · refine ⟨⟨mreq.amount_in.getD 0, to_wei (mreq.amount_in.getD 0), 0, to_wei 0,
      mreq.fee.getD 3000⟩, ?_, rfl, ?_⟩
    · simp [UniswapSimple.swap_token, hm1, hm2, hm3, haom]
    · norm_num [to_wei, pyInt]
  · simp [UniswapSimple.swap_token, haom]

/-- C10 witness: the real endpoint rejects the concrete request with
`amount_out_min = 0` (400, empty trace); the mock accepts the analogous
request with `amount_out_minimum = 0` and rejects it when the field is
absent. -/
theorem C10_witness :
    (∀ connected signed,
        swap_token connected signed ⟨some "k", some "a", some 1, some 0, some 500⟩ =
          ([], .failed 400)) ∧
      (∃ body, UniswapSimple.swap_token ⟨some "k", some "a", some 1, some 0, none⟩ =
          .success body ∧ body.amount_out_minimum = 0) ∧
      UniswapSimple.swap_token ⟨some "k", some "a", some 1, none, none⟩ =
        .missingFields := by
  have hm : truthyS (some "k") = true ∧ truthyS (some "a") = true ∧
      truthyQ (some 1) = true := by refine ⟨rfl, rfl, ?_⟩; norm_num [truthyQ]
  obtain ⟨g1, g2, _⟩ := C10_swap_validation_divergence
    ⟨some "k", some "a", some 1, some 0, some 500⟩
    (Or.inr (Or.inr (Or.inr (Or.inl (by norm_num [truthyQ])))))
    ⟨some "k", some "a", some 1, some 0, none⟩ hm
  obtain ⟨_, _, g3⟩ := C10_swap_validation_divergence
    ⟨some "k", some "a", some 1, some 0, some 500⟩
    (Or.inr (Or.inr (Or.inr (Or.inl (by norm_num [truthyQ])))))
    ⟨some "k", some "a", some 1, none, none⟩ ⟨hm.1, hm.2.1, hm.2.2⟩
  obtain ⟨body, hb1, hb2, _⟩ := g2 rfl
  exact ⟨g1, ⟨body, hb1, hb2⟩, g3 rfl⟩

end Aspecta
